import Mathlib

/-!
Verification of the homer CLI's Terraform supervision core
(`src/libs/core.py`) against its natural-language specification.

The Python code is shallowly embedded: the mutable state of
`TerraformProcessManager` (current child, interrupt counter, the
process-wide SIGINT/SIGTERM handler table) becomes an explicit state
record, and each supervised call takes an `Execution` record describing
what the environment did (did `Popen` succeed, the child's exit code,
what it wrote, how many interrupts were recorded while waiting).
Exceptions become outcome constructors; `try/finally` becomes a
restoration applied on every branch, mirroring the source line by line.
-/

namespace Homer

/-- A slot of the process-wide signal-handler table, as saved and
restored by `signal.signal`.  `supervisor` is the bound
`TerraformProcessManager._signal_handler`; `custom n` stands for any
other previously installed handler. -/
inductive Handler where
  | default
  | ignore
  | supervisor
  | custom (n : Nat)
  deriving DecidableEq

/-- The mutable state touched by `TerraformProcessManager`: its
`current_process` and `interrupt_count` attributes plus the SIGINT and
SIGTERM entries of the signal table. -/
structure ManagerState where
  current_process : Option Nat
  interrupt_count : Nat
  sigint : Handler
  sigterm : Handler
  deriving DecidableEq

/-- What the environment did during one supervised call: whether
`subprocess.Popen` itself succeeded, the child's pid, its exit code,
the raw text it wrote on each stream, and the value the interrupt
counter has once `communicate()` returns. -/
structure Execution where
  spawn_ok : Bool
  pid : Nat
  returncode : Int
  out_text : String
  err_text : String
  interrupts : Nat
  deriving DecidableEq

/-- Outcome of `run_command`.  `success` models the returned
`CompletedProcess`; `commandFailed` models a raised
`CommandExecutionError` (carrying `return_code`, `stdout`, `stderr` as
passed — `none` models Python's `None`); `interrupted` models a raised
`KeyboardInterrupt`; `spawnError` models an exception escaping from
`Popen` itself. -/
inductive RunOutcome where
  | success (stdout stderr : Option String)
  | commandFailed (return_code : Int) (stdout stderr : Option String)
  | interrupted
  | spawnError
  deriving DecidableEq

/-- The value `communicate()` yields for one stream: the captured text
when the stream was piped (`capture = true`), and Python `None`
(modelled `none`) when it was inherited. -/
def capturedStream (capture : Bool) (raw : String) : Option String :=
  if capture then some raw else none

/-- `TerraformProcessManager.run_command` (core.py lines 44-67).  Saves
the two handlers, installs the supervisor's handler, zeroes the
interrupt counter, spawns, waits, then decides the outcome:
interrupt count > 0 raises `KeyboardInterrupt`; a non-zero exit code
raises `CommandExecutionError` with the streams exactly as
`communicate()` returned them; otherwise the call succeeds.  The
`finally` block — clearing `current_process` and restoring both saved
handlers — is applied on every branch, including the spawn-failure
branch. -/
def run_command (st : ManagerState) (capture : Bool) (ex : Execution) :
    RunOutcome × ManagerState :=
  let original_sigint := st.sigint
  let original_sigterm := st.sigterm
  let armed : ManagerState :=
    { st with sigint := Handler.supervisor, sigterm := Handler.supervisor,
              interrupt_count := 0 }
  if ex.spawn_ok then
    let waited : ManagerState :=
      { armed with current_process := some ex.pid, interrupt_count := ex.interrupts }
    let stdout := capturedStream capture ex.out_text
    let stderr := capturedStream capture ex.err_text
    let result :=
      if waited.interrupt_count > 0 then RunOutcome.interrupted
      else if ex.returncode ≠ 0 then RunOutcome.commandFailed ex.returncode stdout stderr
      else RunOutcome.success stdout stderr
    (result,
     { waited with current_process := none,
                   sigint := original_sigint, sigterm := original_sigterm })
  else
    (RunOutcome.spawnError,
     { armed with current_process := none,
                  sigint := original_sigint, sigterm := original_sigterm })

/-- The observable action of one `_signal_handler` occurrence:
nothing, a graceful SIGINT to the child's process group
(`os.killpg`), or an immediate `kill()`. -/
inductive SignalAction where
  | noSignal
  | gracefulInterrupt (pid : Nat)
  | forcedKill (pid : Nat)
  deriving DecidableEq

/-- `TerraformProcessManager._signal_handler` (core.py lines 23-42).
Always increments the counter first; then, if there is no current
child or `poll()` reports it already exited (`child_exited`), returns
without doing anything; a first interrupt forwards a graceful SIGINT,
a second or later one kills the child. -/
def signal_handler (st : ManagerState) (child_exited : Bool) :
    ManagerState × SignalAction :=
  let st' : ManagerState := { st with interrupt_count := st.interrupt_count + 1 }
  match st'.current_process with
  | none => (st', SignalAction.noSignal)
  | some pid =>
    if child_exited then (st', SignalAction.noSignal)
    else if st'.interrupt_count = 1 then (st', SignalAction.gracefulInterrupt pid)
    else (st', SignalAction.forcedKill pid)

/-- C1: for a supervised call whose child was spawned, an interrupt
count ≥ 1 at exit yields the Interrupted outcome regardless of the
exit code; with interrupt count 0 the call succeeds iff the exit code
is 0, and a non-zero exit code yields CommandFailed carrying exactly
that exit code. -/
theorem run_command_outcome (st : ManagerState) (capture : Bool) (ex : Execution)
    (hspawn : ex.spawn_ok = true) :
    (1 ≤ ex.interrupts → (run_command st capture ex).fst = RunOutcome.interrupted) ∧
    (ex.interrupts = 0 →
      (((run_command st capture ex).fst =
          RunOutcome.success (capturedStream capture ex.out_text)
            (capturedStream capture ex.err_text)) ↔ ex.returncode = 0) ∧
      (ex.returncode ≠ 0 →
        (run_command st capture ex).fst =
          RunOutcome.commandFailed ex.returncode
            (capturedStream capture ex.out_text)
            (capturedStream capture ex.err_text))) := by
  unfold run_command
  simp only [hspawn, if_true]
  refine ⟨fun h1 => ?_, fun h0 => ?_⟩
  · simp [Nat.lt_of_lt_of_le Nat.zero_lt_one h1]
  · by_cases hrc : ex.returncode = 0 <;> simp [h0, hrc]

/-- Closed instance of `run_command_outcome`: a spawned child with
exit code 0 and one recorded interrupt is reported Interrupted. -/
theorem run_command_outcome_witness :
    (run_command ⟨none, 0, Handler.default, Handler.default⟩ true
        ⟨true, 7, 0, "out", "err", 1⟩).fst = RunOutcome.interrupted :=
  (run_command_outcome ⟨none, 0, Handler.default, Handler.default⟩ true
      ⟨true, 7, 0, "out", "err", 1⟩ rfl).1 (by decide)

/-- C4: on every exit path of `run_command` — success, failure,
interruption, or a spawn-time exception — the final state has the
current-child reference cleared and both saved signal handlers
restored to their pre-call values. -/
theorem run_command_cleanup (st : ManagerState) (capture : Bool) (ex : Execution) :
    (run_command st capture ex).snd.current_process = none ∧
    (run_command st capture ex).snd.sigint = st.sigint ∧
    (run_command st capture ex).snd.sigterm = st.sigterm := by
  unfold run_command
  cases hs : ex.spawn_ok <;> simp

/-- C7: a signal-handler occurrence with no active child, or after the
child has already exited, performs no signalling action at all,
whatever the previously recorded interrupt count. -/
theorem signal_handler_noop (st : ManagerState) (child_exited : Bool)
    (h : st.current_process = none ∨ child_exited = true) :
    (signal_handler st child_exited).snd = SignalAction.noSignal := by
  unfold signal_handler
  rcases h with h | h
  · simp [h]
  · cases hc : st.current_process <;> simp [h]

/-- Closed instance of `signal_handler_noop`: a fifth interrupt after
the child exited does nothing. -/
theorem signal_handler_noop_witness :
    (signal_handler ⟨some 7, 4, Handler.supervisor, Handler.supervisor⟩ true).snd =
      SignalAction.noSignal :=
  signal_handler_noop ⟨some 7, 4, Handler.supervisor, Handler.supervisor⟩ true
    (Or.inr rfl)

/-! Structured plan reader: `TerraformInteractiveRunner._get_plan_changes`
(core.py lines 130-144).  The parsed plan document's entries are
modelled with optional fields, `none` standing for an absent key, so
that the source's defaulted lookups (`res.get("address", "")`,
`res.get("change", \x7b\x7d).get("actions", [])`) are reproduced
exactly. -/

/-- The nested `change` object of one resource entry of the structured
plan document; its `actions` key may be absent. -/
structure Change where
  actions : Option (List String)
  deriving DecidableEq

/-- One entry of the document's `resource_changes` list; its `address`
and `change` keys may be absent. -/
structure ResourceEntry where
  address : Option String
  change : Option Change
  deriving DecidableEq

/-- The source's `res.get("change", \x7b\x7d).get("actions", [])`: the
actions list, defaulting to empty when `change` or `actions` is
absent. -/
def entryActions (r : ResourceEntry) : List String :=
  ((r.change.getD ⟨none⟩).actions).getD []

/-- Python's `",".join(parts)`. -/
def joinComma : List String → String
  | [] => ""
  | [a] => a
  | a :: rest => a ++ "," ++ joinComma rest

/-- The list comprehension of `_get_plan_changes` (core.py lines
140-144): keep an entry unless `"no-op"` is a member of its actions
list, and project kept entries to
`(address or "", comma-joined actions)` in document order. -/
def get_plan_changes : List ResourceEntry → List (String × String)
  | [] => []
  | r :: rs =>
    if "no-op" ∈ entryActions r then get_plan_changes rs
    else (r.address.getD "", joinComma (entryActions r)) :: get_plan_changes rs

/-- The projection as the specification words it (§4.2 step 3 and §7):
drop an entry only when its actions list is exactly `["no-op"]`.
Written from the spec's words, for comparison with the source's
`get_plan_changes`. -/
def spec_plan_changes : List ResourceEntry → List (String × String)
  | [] => []
  | r :: rs =>
    if entryActions r = ["no-op"] then spec_plan_changes rs
    else (r.address.getD "", joinComma (entryActions r)) :: spec_plan_changes rs

/-- Counterexample to C3 as stated: an entry whose actions list mixes
`no-op` with another token is dropped by the source (membership test),
while the spec's exactly-`["no-op"]` wording would keep it. -/
theorem get_plan_changes_mixed_noop :
    get_plan_changes [⟨some "a", some ⟨some ["no-op", "create"]⟩⟩] = [] ∧
    spec_plan_changes [⟨some "a", some ⟨some ["no-op", "create"]⟩⟩] =
      [("a", "no-op,create")] := by
  constructor <;> rfl

/-- C3 (amended): `_get_plan_changes` returns exactly the entries whose
actions list does not contain the `no-op` token — so a mixed list
containing `no-op` is dropped too — projected to
(address, comma-joined actions) pairs in the original order; and on
the payload `[(a, [no-op]), (b, [create])]` the result is exactly
`[("b", "create")]`. -/
theorem get_plan_changes_filter (rs : List ResourceEntry) :
    get_plan_changes rs =
      (rs.filter (fun r => decide ("no-op" ∉ entryActions r))).map
        (fun r => (r.address.getD "", joinComma (entryActions r))) ∧
    get_plan_changes
        [⟨some "a", some ⟨some ["no-op"]⟩⟩, ⟨some "b", some ⟨some ["create"]⟩⟩] =
      [("b", "create")] := by
  refine ⟨?_, rfl⟩
  induction rs with
  | nil => rfl
  | cons r rs ih =>
    by_cases h : "no-op" ∈ entryActions r <;>
      simp [get_plan_changes, h, ih]

/-- C10: an entry with an absent change object, absent actions list, or
empty actions list is kept by `_get_plan_changes` with an empty action
string; an entry with no address appears with an empty address string;
and an entry is elided from the result exactly when `no-op` is a
member of its actions list. -/
theorem get_plan_changes_defaults (rs : List ResourceEntry) (r : ResourceEntry) :
    ((r.change = none ∨ r.change = some ⟨none⟩ ∨ r.change = some ⟨some []⟩) →
      get_plan_changes (r :: rs) = (r.address.getD "", "") :: get_plan_changes rs) ∧
    (r.address = none → "no-op" ∉ entryActions r →
      get_plan_changes (r :: rs) =
        ("", joinComma (entryActions r)) :: get_plan_changes rs) ∧
    ("no-op" ∈ entryActions r ↔ get_plan_changes (r :: rs) = get_plan_changes rs) := by
  refine ⟨fun h => ?_, fun ha hn => ?_, ?_⟩
  · have hact : entryActions r = [] := by
      rcases h with h | h | h <;> simp [entryActions, h]
    simp [get_plan_changes, hact, joinComma]
  · simp [get_plan_changes, hn, ha]
  · constructor
    · intro h
      simp [get_plan_changes, h]
    · intro h
      by_contra hn
      rw [get_plan_changes, if_neg hn] at h
      exact List.cons_ne_self _ _ h

/-- Closed instance of `get_plan_changes_defaults`: an entry with no
address and no change object survives as `("", "")`. -/
theorem get_plan_changes_defaults_witness :
    get_plan_changes [⟨none, none⟩] =
      ((none : Option String).getD "", "") :: get_plan_changes [] :=
  (get_plan_changes_defaults [] ⟨none, none⟩).1 (Or.inl rfl)

/-! String helpers modelling the Python primitives the workflows use:
`str.strip`, `str.lower`, the `in` substring test, `int(...)`, and the
one regular expression of the code base, `ID:\s*([a-f0-9-]+)`.  The
model covers the ASCII behaviour of these primitives, which is the
range the workflows exercise. -/

/-- ASCII whitespace as matched by Python's `str.strip` and `\s`. -/
def isPySpace (c : Char) : Bool :=
  c = ' ' || c = '\t' || c = '\n' || c = '\r' || c = '\x0b' || c = '\x0c'

/-- Python's `str.strip()`: remove leading and trailing whitespace. -/
def pyStrip (s : String) : String :=
  String.mk (((s.data.dropWhile isPySpace).reverse.dropWhile isPySpace).reverse)

/-- Python's `str.lower()` (ASCII range). -/
def pyLower (s : String) : String :=
  String.mk (s.data.map Char.toLower)

/-- Python's `pat in s` substring test, on character lists. -/
def pySubstr (pat : List Char) : List Char → Bool
  | [] => pat.isEmpty
  | c :: cs => pat.isPrefixOf (c :: cs) || pySubstr pat cs

/-- Value of one decimal digit character, if it is one. -/
def charDigit (c : Char) : Option Nat :=
  if '0' ≤ c ∧ c ≤ '9' then some (c.toNat - '0'.toNat) else none

/-- Digit tail of Python's `int` grammar: further digits, with single
underscores allowed between digits. -/
def intDigitsAux : Nat → List Char → Option Nat
  | acc, [] => some acc
  | _, ['_'] => none
  | acc, '_' :: c :: cs =>
    match charDigit c with
    | some d => intDigitsAux (acc * 10 + d) cs
    | none => none
  | acc, c :: cs =>
    match charDigit c with
    | some d => intDigitsAux (acc * 10 + d) cs
    | none => none

/-- A nonempty run of decimal digits (with Python's single-underscore
grouping), or `none`. -/
def pyIntDigits : List Char → Option Nat
  | [] => none
  | c :: cs =>
    match charDigit c with
    | some d => intDigitsAux d cs
    | none => none

/-- Python's `int(s)` on an already-stripped string: optional sign,
then a nonempty digit run. Returns `none` where `int` raises
`ValueError`. -/
def pyInt (s : String) : Option Int :=
  match s.data with
  | '+' :: rest => (pyIntDigits rest).map (fun n => (n : Int))
  | '-' :: rest => (pyIntDigits rest).map (fun n => -(n : Int))
  | ds => (pyIntDigits ds).map (fun n => (n : Int))

/-! Lock recovery: `TerraformUnlocker.run` (core.py lines 81-102).  The
interesting part is the `except CommandExecutionError` branch, which
inspects the exception's `stderr`, extracts a lock id with
`re.search(r"ID:\s*([a-f0-9-]+)", e.stderr)`, and walks the operator
through a forced unlock.  It is modelled as a function of the
carried `stderr` and the operator's two replies. -/

/-- The character class `[a-f0-9-]` of the lock-id pattern. -/
def isHexDash (c : Char) : Bool :=
  ('a' ≤ c && c ≤ 'f') || ('0' ≤ c && c ≤ '9') || c = '-'

/-- One anchored attempt of the pattern `ID:\s*([a-f0-9-]+)` at the
head of the list: the literal label, then greedy whitespace, then a
nonempty maximal run of `[a-f0-9-]` characters as the captured
group.  Greedy `\s*` needs no backtracking here because whitespace and
the captured class are disjoint. -/
def matchIdAt : List Char → Option String
  | a :: b :: c :: rest =>
    if a = 'I' ∧ b = 'D' ∧ c = ':' then
      let tok := (rest.dropWhile isPySpace).takeWhile isHexDash
      if tok = [] then none else some (String.mk tok)
    else none
  | _ => none

/-- `re.search` for the lock-id pattern: try each start position left
to right and return the first captured group, if any. -/
def searchLockId : List Char → Option String
  | [] => none
  | c :: cs =>
    match matchIdAt (c :: cs) with
    | some t => some t
    | none => searchLockId cs

/-- The lock-acquisition error marker the unlocker looks for. -/
def lockMarker : String := "Error acquiring the state lock"

/-- Result of the unlocker's failure branch.  `typeError` models the
fact that `"..." in e.stderr` is a Python `TypeError` when the carried
`stderr` is `None`; `unexpected` prints the text and does not unlock;
`noForce` is a declined confirmation; `noId` is a confirmed unlock
with no id extracted and none typed; `unlocked id` is a supervised
`force-unlock -force id` call. -/
inductive UnlockResult where
  | typeError
  | unexpected (text : String)
  | noForce
  | noId
  | unlocked (lock_id : String)
  deriving DecidableEq

/-- The `except CommandExecutionError` branch of
`TerraformUnlocker.run` (core.py lines 86-102), as a function of the
exception's carried `stderr` (an `Option` because `run_command`
without capture carries Python `None`), the reply to the force-unlock
confirmation, and the reply to the manual-id prompt. -/
def unlocker_on_error (stderr : Option String) (confirm manual : String) :
    UnlockResult :=
  match stderr with
  | none => UnlockResult.typeError
  | some text =>
    if pySubstr lockMarker.data text.data then
      let lock_id := searchLockId text.data
      if pyLower (pyStrip confirm) = "s" then
        match lock_id with
        | some i => UnlockResult.unlocked i
        | none =>
          let typed := pyStrip manual
          if typed = "" then UnlockResult.noId else UnlockResult.unlocked typed
      else UnlockResult.noForce
    else UnlockResult.unexpected text

/-- The terraform argument vector a given unlock result issues, if
any: only `unlocked id` runs `force-unlock -force id`. -/
def unlockCommand : UnlockResult → Option (List String)
  | UnlockResult.unlocked i => some ["terraform", "force-unlock", "-force", i]
  | _ => none

/-- C2 (failing input): an uncaptured supervised call that exits 1
with no interrupts raises `CommandExecutionError` carrying `none` for
both streams — Python `None`, not the empty strings the specification
promises — and the unlocker's marker test applied to that carried
`stderr` is a `TypeError`, so the lock-recovery text inspection is
undefined rather than well-defined. -/
theorem run_command_uncaptured_failure :
    (run_command ⟨none, 0, Handler.default, Handler.default⟩ false
        ⟨true, 7, 1, "", "Error acquiring the state lock", 0⟩).fst =
      RunOutcome.commandFailed 1 none none ∧
    (RunOutcome.commandFailed 1 none none ≠
      RunOutcome.commandFailed 1 (some "") (some "")) ∧
    unlocker_on_error none "s" "" = UnlockResult.typeError := by
  refine ⟨rfl, by simp, rfl⟩

/-- A captured token stands after the `ID:` label, separated only by
whitespace, somewhere in the text. -/
def followsIdLabel (s tok : List Char) : Prop :=
  ∃ pre ws post,
    s = pre ++ ('I' :: 'D' :: ':' :: ws) ++ tok ++ post ∧
    ∀ c ∈ ws, isPySpace c = true

/-- Soundness of one anchored match: the captured token is nonempty,
drawn from `[a-f0-9-]`, and follows the label after whitespace only. -/
theorem matchIdAt_sound (s : List Char) (t : String)
    (h : matchIdAt s = some t) :
    t.data ≠ [] ∧ (∀ c ∈ t.data, isHexDash c = true) ∧ followsIdLabel s t.data := by
  match s with
  | [] => exact absurd h (by simp [matchIdAt])
  | [a] => exact absurd h (by simp [matchIdAt])
  | [a, b] => exact absurd h (by simp [matchIdAt])
  | a :: b :: c :: rest =>
    rw [matchIdAt] at h
    by_cases hlit : a = 'I' ∧ b = 'D' ∧ c = ':'
    · rw [if_pos hlit] at h
      obtain ⟨ha, hb, hc⟩ := hlit
      subst ha hb hc
      by_cases he : (rest.dropWhile isPySpace).takeWhile isHexDash = []
      · rw [if_pos he] at h
        exact absurd h (by simp)
      · rw [if_neg he] at h
        have ht : t.data = (rest.dropWhile isPySpace).takeWhile isHexDash := by
          cases h
          rfl
        refine ⟨by rw [ht]; exact he, ?_, ?_⟩
        · intro x hx
          rw [ht] at hx
          exact List.mem_takeWhile_imp hx
        · refine ⟨[], rest.takeWhile isPySpace,
            (rest.dropWhile isPySpace).dropWhile isHexDash, ?_, ?_⟩
          · simp only [List.nil_append, List.cons_append, List.cons.injEq, true_and]
            rw [ht, List.append_assoc, List.takeWhile_append_dropWhile,
              List.takeWhile_append_dropWhile]
          · intro x hx
            exact List.mem_takeWhile_imp hx
    · rw [if_neg hlit] at h
      exact absurd h (by simp)

/-- Soundness of the search: a found lock id is a nonempty
`[a-f0-9-]` token standing right after an `ID:` label. -/
theorem searchLockId_sound (s : List Char) (t : String)
    (h : searchLockId s = some t) :
    t.data ≠ [] ∧ (∀ c ∈ t.data, isHexDash c = true) ∧ followsIdLabel s t.data := by
  induction s with
  | nil => exact absurd h (by simp [searchLockId])
  | cons c cs ih =>
    rw [searchLockId] at h
    cases hm : matchIdAt (c :: cs) with
    | some t' =>
      rw [hm] at h
      cases h
      exact matchIdAt_sound _ _ hm
    | none =>
      rw [hm] at h
      obtain ⟨hne, hclass, pre, ws, post, heq, hws⟩ := ih h
      exact ⟨hne, hclass, c :: pre, ws, post, by rw [heq]; rfl, hws⟩

/-- C8: when the probe failure's diagnostic text contains the
lock-acquisition marker, the extracted lock identifier is exactly the
first nonempty hexadecimal-and-hyphen token standing after an
`ID:` label (whitespace-separated), and a confirmed unlock uses it
verbatim; when the pattern finds no token the identifier is unknown —
no error — and after confirming the operator is prompted to type one
manually: a nonempty typed id is used, an empty one ends the workflow
with no unlock call. -/
theorem unlocker_lock_id (stderr confirm manual : String)
    (hmark : pySubstr lockMarker.data stderr.data = true) :
    (∀ t, searchLockId stderr.data = some t →
      t.data ≠ [] ∧ (∀ c ∈ t.data, isHexDash c = true) ∧
        followsIdLabel stderr.data t.data) ∧
    (∀ t, searchLockId stderr.data = some t →
      pyLower (pyStrip confirm) = "s" →
      unlocker_on_error (some stderr) confirm manual = UnlockResult.unlocked t) ∧
    (searchLockId stderr.data = none → pyLower (pyStrip confirm) = "s" →
      unlocker_on_error (some stderr) confirm manual =
        (if pyStrip manual = "" then UnlockResult.noId
         else UnlockResult.unlocked (pyStrip manual))) := by
  refine ⟨fun t ht => searchLockId_sound _ _ ht, fun t ht hcf => ?_, fun ht hcf => ?_⟩
  · simp [unlocker_on_error, hmark, hcf, ht]
  · simp [unlocker_on_error, hmark, hcf, ht]

/-- Closed instance of `unlocker_lock_id` at the spec's example shape:
the diagnostic text carries the marker and an `ID:` label followed by
a concrete hexadecimal-and-hyphen id, and the confirmed unlock uses
exactly that token. -/
theorem unlocker_lock_id_witness :
    pySubstr lockMarker.data
        ("Error acquiring the state lock: ConditionalCheckFailed\n  ID:        abcd1234-ef00-4f00-0001-222233334444\n  Path: x").data = true ∧
    searchLockId
        ("Error acquiring the state lock: ConditionalCheckFailed\n  ID:        abcd1234-ef00-4f00-0001-222233334444\n  Path: x").data =
      some "abcd1234-ef00-4f00-0001-222233334444" ∧
    unlocker_on_error
        (some "Error acquiring the state lock: ConditionalCheckFailed\n  ID:        abcd1234-ef00-4f00-0001-222233334444\n  Path: x")
        "s" "" =
      UnlockResult.unlocked "abcd1234-ef00-4f00-0001-222233334444" := by
  refine ⟨by decide, by decide, ?_⟩
  exact (unlocker_lock_id
      "Error acquiring the state lock: ConditionalCheckFailed\n  ID:        abcd1234-ef00-4f00-0001-222233334444\n  Path: x"
      "s" "" (by decide)).2.1
      "abcd1234-ef00-4f00-0001-222233334444" (by decide) (by decide)

/-! Interactive change selector:
`TerraformInteractiveRunner._prompt_for_selection` (core.py lines
152-173).  Each `input(...)` is modelled as an event that is either
the typed text or a `KeyboardInterrupt` raised while prompting.  The
body is embedded first, recording the supervised terraform
invocations it issues, whether the confirmation prompt was shown, and
the `ValueError`/`KeyboardInterrupt` it raises if any; the wrapper
then applies the source's `except (ValueError, KeyboardInterrupt)`
clause, which prints a cancelled-operation message and returns
normally. -/

/-- One `input()` interaction: the operator typed `s`, or the prompt
itself was interrupted (`KeyboardInterrupt`). -/
inductive InEvent where
  | text (s : String)
  | interrupt
  deriving DecidableEq

/-- The two exception kinds the selection prompt's handler catches. -/
inductive PromptErr where
  | valueError
  | keyboardInterrupt
  deriving DecidableEq

/-- Trace of the `try` body: terraform argument vectors issued through
`_run_tf_command`, whether the secondary confirmation prompt was
shown, and the exception leaving the body, if any. -/
structure PromptTrace where
  issued : List (List String)
  confirm_prompted : Bool
  err : Option PromptErr
  deriving DecidableEq

/-- The `try` body of `_prompt_for_selection` (core.py lines 153-171):
normalize the choice with `.strip().lower()`; `c`/`cancelar` returns
quietly; `t`/`todos` re-runs the follow-up command (`apply` for an
original `plan`, else `destroy`) with `-auto-approve` and the plan
file, unprompted; otherwise `int(choice)` (a `ValueError` when
unparsable), a range check (out of range raises `ValueError`), then a
confirmation prompt guarding the targeted call built from the chosen
change's address and the original extra arguments. -/
def prompt_body (command plan_file : String) (extra_args : List String)
    (changes : List (String × String)) (choice_ev confirm_ev : InEvent) :
    PromptTrace :=
  match choice_ev with
  | InEvent.interrupt => ⟨[], false, some PromptErr.keyboardInterrupt⟩
  | InEvent.text raw =>
    let choice := pyLower (pyStrip raw)
    if choice = "c" ∨ choice = "cancelar" then ⟨[], false, none⟩
    else
      let final_command := if command = "plan" then "apply" else "destroy"
      if choice = "t" ∨ choice = "todos" then
        ⟨[["terraform", final_command, "-auto-approve", plan_file]], false, none⟩
      else
        match pyInt choice with
        | none => ⟨[], false, some PromptErr.valueError⟩
        | some index =>
          if 1 ≤ index ∧ index ≤ (changes.length : Int) then
            let target := "-target=" ++ (changes.getD (index - 1).toNat ("", "")).1
            match confirm_ev with
            | InEvent.interrupt => ⟨[], true, some PromptErr.keyboardInterrupt⟩
            | InEvent.text reply =>
              if pyLower (pyStrip reply) = "s" then
                ⟨[("terraform" :: final_command :: "-auto-approve" :: target ::
                    extra_args)], true, none⟩
              else ⟨[], true, none⟩
          else ⟨[], false, some PromptErr.valueError⟩

/-- Result of `_prompt_for_selection` after its exception handler:
the issued invocations, whether confirmation was prompted, and
whether the cancelled-operation message was printed.  The method
always returns normally on these paths. -/
structure PromptResult where
  issued : List (List String)
  confirm_prompted : Bool
  cancelled_message : Bool
  deriving DecidableEq

/-- `_prompt_for_selection` (core.py lines 152-173): run the body and
apply the `except (ValueError, KeyboardInterrupt)` clause, which turns
either exception into a printed cancelled-operation message and a
normal return. -/
def prompt_for_selection (command plan_file : String) (extra_args : List String)
    (changes : List (String × String)) (choice_ev confirm_ev : InEvent) :
    PromptResult :=
  let t := prompt_body command plan_file extra_args changes choice_ev confirm_ev
  match t.err with
  | none => ⟨t.issued, t.confirm_prompted, false⟩
  | some _ => ⟨t.issued, t.confirm_prompted, true⟩

/-- A normalized choice that parses as an integer is none of the four
word tokens. -/
theorem pyInt_token_ne (raw tok : String) (n : Int)
    (hn : pyInt (pyLower (pyStrip raw)) = some n) (htok : pyInt tok = none) :
    pyLower (pyStrip raw) ≠ tok := by
  intro he
  rw [he, htok] at hn
  exact Option.noConfusion hn

/-- C5: on the all-token (`t` or `todos` after strip/lower) the
selector issues exactly one supervised call — the follow-up command
(`apply` for an original `plan`, `destroy` for an original `destroy`)
with the unconditional-approval flag and the existing plan file path —
with no confirmation prompt and without the original extra
arguments. -/
theorem prompt_all_token (command plan_file : String) (extra_args : List String)
    (changes : List (String × String)) (confirm_ev : InEvent) (raw : String)
    (hc : pyLower (pyStrip raw) = "t" ∨ pyLower (pyStrip raw) = "todos") :
    (command = "plan" →
      prompt_for_selection command plan_file extra_args changes
          (InEvent.text raw) confirm_ev =
        ⟨[["terraform", "apply", "-auto-approve", plan_file]], false, false⟩) ∧
    (command = "destroy" →
      prompt_for_selection command plan_file extra_args changes
          (InEvent.text raw) confirm_ev =
        ⟨[["terraform", "destroy", "-auto-approve", plan_file]], false, false⟩) := by
  constructor <;> intro hcmd <;> subst hcmd <;>
    rcases hc with hc | hc <;>
      simp [prompt_for_selection, prompt_body, hc]

/-- Closed instance of `prompt_all_token` at the spec's example input
`"t"` for an original `plan`. -/
theorem prompt_all_token_witness :
    prompt_for_selection "plan" "/tmp/make-cli-x/tmp.tfplan" ["-var-file=x.tfvars"]
        [("a", "create"), ("b", "delete")] (InEvent.text "t") (InEvent.text "") =
      ⟨[["terraform", "apply", "-auto-approve", "/tmp/make-cli-x/tmp.tfplan"]],
       false, false⟩ :=
  (prompt_all_token "plan" "/tmp/make-cli-x/tmp.tfplan" ["-var-file=x.tfvars"]
      [("a", "create"), ("b", "delete")] (InEvent.text "") "t"
      (Or.inl (by decide))).1 rfl

/-- C6: on an in-range numeric index over a non-empty change list, a
confirmed selection issues exactly one supervised call whose argument
vector is the follow-up command, the unconditional-approval flag,
`-target=` with the chosen change's address, then the original extra
arguments — the plan file path is not part of that vector — and a
declined confirmation issues no call at all. -/
theorem prompt_numeric_index (command plan_file : String) (extra_args : List String)
    (changes : List (String × String)) (raw reply : String) (n : Int)
    (hn : pyInt (pyLower (pyStrip raw)) = some n)
    (hlo : 1 ≤ n) (hhi : n ≤ (changes.length : Int)) :
    (pyLower (pyStrip reply) = "s" →
      prompt_for_selection command plan_file extra_args changes
          (InEvent.text raw) (InEvent.text reply) =
        ⟨[("terraform" :: (if command = "plan" then "apply" else "destroy") ::
            "-auto-approve" ::
            ("-target=" ++ (changes.getD (n - 1).toNat ("", "")).1) ::
            extra_args)], true, false⟩) ∧
    (pyLower (pyStrip reply) ≠ "s" →
      prompt_for_selection command plan_file extra_args changes
          (InEvent.text raw) (InEvent.text reply) = ⟨[], true, false⟩) ∧
    (plan_file ∉
        ("terraform" :: (if command = "plan" then "apply" else "destroy") ::
          "-auto-approve" ::
          ("-target=" ++ (changes.getD (n - 1).toNat ("", "")).1) ::
          extra_args) →
      ∀ v ∈ (prompt_for_selection command plan_file extra_args changes
          (InEvent.text raw) (InEvent.text reply)).issued, plan_file ∉ v) := by
  have h1 := pyInt_token_ne raw "c" n hn (by decide)
  have h2 := pyInt_token_ne raw "cancelar" n hn (by decide)
  have h3 := pyInt_token_ne raw "t" n hn (by decide)
  have h4 := pyInt_token_ne raw "todos" n hn (by decide)
  have hyes : pyLower (pyStrip reply) = "s" →
      prompt_for_selection command plan_file extra_args changes
          (InEvent.text raw) (InEvent.text reply) =
        ⟨[("terraform" :: (if command = "plan" then "apply" else "destroy") ::
            "-auto-approve" ::
            ("-target=" ++ (changes.getD (n - 1).toNat ("", "")).1) ::
            extra_args)], true, false⟩ := by
    intro hr
    simp [prompt_for_selection, prompt_body, h1, h2, h3, h4, hn, hlo, hhi, hr]
  have hdecl : pyLower (pyStrip reply) ≠ "s" →
      prompt_for_selection command plan_file extra_args changes
          (InEvent.text raw) (InEvent.text reply) = ⟨[], true, false⟩ := by
    intro hr
    simp [prompt_for_selection, prompt_body, h1, h2, h3, h4, hn, hlo, hhi, hr]
  refine ⟨hyes, hdecl, fun hpf v hv => ?_⟩
  by_cases hr : pyLower (pyStrip reply) = "s"
  · rw [hyes hr] at hv
    simp only [List.mem_singleton] at hv
    rw [hv]
    exact hpf
  · rw [hdecl hr] at hv
    exact absurd hv (List.not_mem_nil v)

/-- Closed instance of `prompt_numeric_index` at the spec's example:
changes `[(a, create), (b, delete)]`, input `"2"`, confirmation `"s"`:
the one issued vector targets `b`, carries `-auto-approve`, and does
not carry the plan file. -/
theorem prompt_numeric_index_witness :
    prompt_for_selection "plan" "/tmp/make-cli-x/tmp.tfplan" ["-var-file=x.tfvars"]
        [("a", "create"), ("b", "delete")] (InEvent.text "2") (InEvent.text "s") =
      ⟨[["terraform", "apply", "-auto-approve", "-target=b", "-var-file=x.tfvars"]],
       true, false⟩ := by
  have h := (prompt_numeric_index "plan" "/tmp/make-cli-x/tmp.tfplan"
      ["-var-file=x.tfvars"] [("a", "create"), ("b", "delete")] "2" "s" 2
      (by decide) (by decide) (by decide)).1 (by decide)
  exact h

/-- C9: any selection input that is not a valid token — unparsable
text, an out-of-range index, or an interrupt raised at either prompt —
leaves the selector with no supervised call issued and the
cancelled-operation message printed; the exception is consumed by the
handler, so the method returns normally to its caller. -/
theorem prompt_invalid_cancelled (command plan_file : String)
    (extra_args : List String) (changes : List (String × String))
    (choice_ev confirm_ev : InEvent)
    (h : choice_ev = InEvent.interrupt ∨
      (∃ raw, choice_ev = InEvent.text raw ∧
        pyLower (pyStrip raw) ≠ "c" ∧ pyLower (pyStrip raw) ≠ "cancelar" ∧
        pyLower (pyStrip raw) ≠ "t" ∧ pyLower (pyStrip raw) ≠ "todos" ∧
        (pyInt (pyLower (pyStrip raw)) = none ∨
          ∃ n, pyInt (pyLower (pyStrip raw)) = some n ∧
            (n < 1 ∨ (changes.length : Int) < n))) ∨
      (∃ raw n, choice_ev = InEvent.text raw ∧
        pyInt (pyLower (pyStrip raw)) = some n ∧
        1 ≤ n ∧ n ≤ (changes.length : Int) ∧ confirm_ev = InEvent.interrupt)) :
    (prompt_for_selection command plan_file extra_args changes
        choice_ev confirm_ev).issued = [] ∧
    (prompt_for_selection command plan_file extra_args changes
        choice_ev confirm_ev).cancelled_message = true := by
  rcases h with h | ⟨raw, hev, h1, h2, h3, h4, hnum⟩ | ⟨raw, n, hev, hn, hlo, hhi, hcf⟩
  · subst h
    constructor <;> rfl
  · subst hev
    rcases hnum with hnone | ⟨n, hn, hout⟩
    · constructor <;> simp [prompt_for_selection, prompt_body, h1, h2, h3, h4, hnone]
    · have hrange : ¬(1 ≤ n ∧ n ≤ (changes.length : Int)) := by omega
      constructor <;>
        simp [prompt_for_selection, prompt_body, h1, h2, h3, h4, hn, hrange]
  · subst hev hcf
    have h1 := pyInt_token_ne raw "c" n hn (by decide)
    have h2 := pyInt_token_ne raw "cancelar" n hn (by decide)
    have h3 := pyInt_token_ne raw "t" n hn (by decide)
    have h4 := pyInt_token_ne raw "todos" n hn (by decide)
    constructor <;>
      simp [prompt_for_selection, prompt_body, h1, h2, h3, h4, hn, hlo, hhi]

/-- Closed instance of `prompt_invalid_cancelled`: the non-token text
`"x"` issues nothing and prints the cancelled message. -/
theorem prompt_invalid_cancelled_witness :
    (prompt_for_selection "plan" "/tmp/make-cli-x/tmp.tfplan" []
        [("a", "create")] (InEvent.text "x") (InEvent.text "s")).issued = [] ∧
    (prompt_for_selection "plan" "/tmp/make-cli-x/tmp.tfplan" []
        [("a", "create")] (InEvent.text "x") (InEvent.text "s")).cancelled_message =
      true :=
  prompt_invalid_cancelled "plan" "/tmp/make-cli-x/tmp.tfplan" []
    [("a", "create")] (InEvent.text "x") (InEvent.text "s")
    (Or.inr (Or.inl ⟨"x", rfl, by decide, by decide, by decide, by decide,
      Or.inl (by decide)⟩))

end Homer
